import Mathlib

/-!
Verification development for the valuation engine of the
`valuation-mcp-server` repository.  The Python modules
`src/tools/valuation_models.py` and `src/tools/package_stats.py` are
shallowly embedded: dictionaries with optional numeric entries become
structures of `Option ℚ` fields (Python floats are read as exact
rationals), pure float arithmetic becomes arithmetic in `ℚ` or, where the
code uses fractional powers, in `ℝ` with `Real.rpow`, and Python's
`round(x, d)` (round-half-to-even) becomes `pyRound x d`.
-/

namespace Valuation

/-- The integer nearest to `y`, ties broken to the even integer
(CPython's rounding rule for `round`). -/
def pyRoundNum {α : Type} [LinearOrderedField α] [FloorRing α] (y : α) : ℤ :=
  if y - ⌊y⌋ < 1 / 2 then ⌊y⌋
  else if 1 / 2 < y - ⌊y⌋ then ⌊y⌋ + 1
  else if ⌊y⌋ % 2 = 0 then ⌊y⌋ else ⌊y⌋ + 1

/-- Python's `round(x, d)`: scale by `10^d`, round half to even, unscale. -/
def pyRound {α : Type} [LinearOrderedField α] [FloorRing α] (x : α) (d : ℕ) : α :=
  (pyRoundNum (x * 10 ^ d) : α) / 10 ^ d

section PyRound

variable {α : Type} [LinearOrderedField α] [FloorRing α]

lemma floor_le_pyRoundNum (y : α) : ⌊y⌋ ≤ pyRoundNum y := by
  unfold pyRoundNum; split_ifs <;> omega

lemma pyRoundNum_le_floor_add_one (y : α) : pyRoundNum y ≤ ⌊y⌋ + 1 := by
  unfold pyRoundNum; split_ifs <;> omega

lemma pyRoundNum_mono {a b : α} (h : a ≤ b) : pyRoundNum a ≤ pyRoundNum b := by
  rcases lt_or_eq_of_le (Int.floor_mono h) with hlt | heq
  · calc pyRoundNum a ≤ ⌊a⌋ + 1 := pyRoundNum_le_floor_add_one a
      _ ≤ ⌊b⌋ := by omega
      _ ≤ pyRoundNum b := floor_le_pyRoundNum b
  · unfold pyRoundNum
    rw [← heq]
    have hr : a - (⌊a⌋ : α) ≤ b - (⌊a⌋ : α) := by linarith
    by_cases c1 : a - (⌊a⌋ : α) < 1 / 2
    · rw [if_pos c1]
      split_ifs <;> omega
    · have c1' : ¬ b - (⌊a⌋ : α) < 1 / 2 := fun hb => c1 (lt_of_le_of_lt hr hb)
      rw [if_neg c1, if_neg c1']
      by_cases c2 : 1 / 2 < a - (⌊a⌋ : α)
      · have c2' : 1 / 2 < b - (⌊a⌋ : α) := lt_of_lt_of_le c2 hr
        rw [if_pos c2, if_pos c2']
      · rw [if_neg c2]
        by_cases c3 : 1 / 2 < b - (⌊a⌋ : α)
        · rw [if_pos c3]
          split_ifs <;> omega
        · rw [if_neg c3]

lemma pyRound_mono {x y : α} (d : ℕ) (h : x ≤ y) : pyRound x d ≤ pyRound y d := by
  have hp : (0:α) < 10 ^ d := by positivity
  unfold pyRound
  have key : pyRoundNum (x * 10 ^ d) ≤ pyRoundNum (y * 10 ^ d) :=
    pyRoundNum_mono (mul_le_mul_of_nonneg_right h hp.le)
  exact (div_le_div_right hp).mpr (by exact_mod_cast key)

lemma pyRound_le (x : α) (d : ℕ) : pyRound x d ≤ x + 1 / 10 ^ d := by
  have hp : (0:α) < 10 ^ d := by positivity
  unfold pyRound
  rw [div_le_iff hp]
  have h1 : ((pyRoundNum (x * 10 ^ d) : ℤ) : α) ≤ ((⌊x * 10 ^ d⌋ : ℤ) : α) + 1 := by
    exact_mod_cast pyRoundNum_le_floor_add_one (x * 10 ^ d)
  have h2 : ((⌊x * 10 ^ d⌋ : ℤ) : α) ≤ x * 10 ^ d := Int.floor_le _
  have h3 : (x + 1 / 10 ^ d) * 10 ^ d = x * 10 ^ d + 1 := by field_simp
  rw [h3]
  linarith

lemma le_pyRound (x : α) (d : ℕ) : x - 1 / 10 ^ d ≤ pyRound x d := by
  have hp : (0:α) < 10 ^ d := by positivity
  unfold pyRound
  rw [le_div_iff hp]
  have h1 : ((⌊x * 10 ^ d⌋ : ℤ) : α) ≤ ((pyRoundNum (x * 10 ^ d) : ℤ) : α) := by
    exact_mod_cast floor_le_pyRoundNum (x * 10 ^ d)
  have h2 : x * 10 ^ d - 1 < ((⌊x * 10 ^ d⌋ : ℤ) : α) := by
    have := Int.lt_floor_add_one (x * 10 ^ d)
    linarith
  have h3 : (x - 1 / 10 ^ d) * 10 ^ d = x * 10 ^ d - 1 := by field_simp
  rw [h3]
  linarith

lemma pyRound_nonneg {x : α} (d : ℕ) (h : 0 ≤ x) : 0 ≤ pyRound x d := by
  have hp : (0:α) < 10 ^ d := by positivity
  unfold pyRound
  apply div_nonneg ?_ hp.le
  have hf : (0:ℤ) ≤ ⌊x * 10 ^ d⌋ := Int.floor_nonneg.mpr (mul_nonneg h hp.le)
  exact_mod_cast le_trans hf (floor_le_pyRoundNum _)

/-- On exact grid points (`x * 10^d` an integer), `pyRound` is the identity. -/
lemma pyRound_eq_self {x : α} {d : ℕ} (n : ℤ) (h : x * 10 ^ d = (n : α)) :
    pyRound x d = x := by
  have hp : (0:α) < 10 ^ d := by positivity
  unfold pyRound pyRoundNum
  have hf : ⌊x * 10 ^ d⌋ = n := by rw [h]; exact Int.floor_intCast n
  rw [hf, h, sub_self, if_pos (by norm_num : (0:α) < 1 / 2)]
  rw [div_eq_iff hp.ne']
  exact h.symm

end PyRound

/-! ### Data model (`valuation_models.py`)

Python dictionaries read with `.get(key, default)` are embedded as
structures of `Option ℚ` fields; the defaults are applied at each use
site, exactly where the source applies them. -/

/-- The `metrics` sub-record of `repo_data`. -/
structure RepoMetrics where
  stars : Option ℚ
  forks : Option ℚ
  watchers : Option ℚ

/-- The `scores` sub-record of `repo_data`. -/
structure RepoScores where
  overall_score : Option ℚ
  health_score : Option ℚ
  activity_score : Option ℚ

/-- The `development` sub-record of `repo_data`. -/
structure DevInfo where
  contributors : Option ℚ
  total_commits : Option ℚ
  commit_frequency : Option ℚ

/-- The `repo_data` dictionary of `ValuationInputs`. -/
structure RepoData where
  metrics : RepoMetrics
  scores : RepoScores
  development : DevInfo

/-- The `ValuationInputs` dataclass (defaults as in the source). -/
structure ValuationInputs where
  repo_data : RepoData
  team_size : ℚ := 1
  hourly_rate : ℚ := 100
  development_months : ℚ := 6
  market_multiplier : ℚ := 10

/-- `quality_scores` sub-record of a codebase analysis. -/
structure QualityScores where
  maintainability_index : Option ℚ

/-- `architecture` sub-record of a codebase analysis. -/
structure Architecture where
  modularity_score : Option ℚ
  coupling_score : Option ℚ
  cohesion_score : Option ℚ

/-- `dependencies` sub-record of a codebase analysis. -/
structure Dependencies where
  security_vulnerabilities : Option ℚ
  critical_vulnerabilities : Option ℚ
  outdated_percentage : Option ℚ

/-- `test_coverage` sub-record of a codebase analysis. -/
structure TestCoverage where
  overall_coverage : Option ℚ

/-- `documentation` sub-record of a codebase analysis. -/
structure Documentation where
  readme_quality_score : Option ℚ

/-- A codebase-analysis record as consumed by `calculate_unicorn_hunter`. -/
structure CodebaseAnalysis where
  status : String
  quality_scores : QualityScores
  architecture : Architecture
  dependencies : Dependencies
  test_coverage : TestCoverage
  documentation : Documentation

/-- `codebase_analysis is not None and codebase_analysis.get("status") == "success"`. -/
def has_codebase_analysis (ca : Option CodebaseAnalysis) : Bool :=
  match ca with
  | some c => c.status = "success"
  | none => false

/-! ### Metric normalizer and component scores -/

/-- The repeated normalization pattern of `calculate_unicorn_hunter`:
`min(100, max(0, w * (1 + (x / s) ** e)))` with weight `w`, reference
scale `s` and curve exponent `e`. -/
noncomputable def metric_normalizer (w s e x : ℝ) : ℝ :=
  min 100 (max 0 (w * (1 + (x / s) ^ e)))

/-- `star_score = min(100, max(0, 20 * (1 + (stars / 1000) ** 0.3)))`. -/
noncomputable def star_score (stars : ℝ) : ℝ := metric_normalizer 20 1000 0.3 stars

/-- `fork_score = min(100, max(0, 15 * (1 + (forks / 500) ** 0.3)))`. -/
noncomputable def fork_score (forks : ℝ) : ℝ := metric_normalizer 15 500 0.3 forks

/-- `watcher_score = min(100, max(0, 10 * (1 + (watchers / 200) ** 0.3)))`. -/
noncomputable def watcher_score (watchers : ℝ) : ℝ := metric_normalizer 10 200 0.3 watchers

/-- `community_momentum = star_score * 0.5 + fork_score * 0.3 + watcher_score * 0.2`. -/
noncomputable def community_momentum (stars forks watchers : ℝ) : ℝ :=
  star_score stars * 0.5 + fork_score forks * 0.3 + watcher_score watchers * 0.2

/-- `contributor_score = min(100, max(0, 30 * (1 + (contributors / 50) ** 0.4)))`. -/
noncomputable def contributor_score (contributors : ℝ) : ℝ :=
  metric_normalizer 30 50 0.4 contributors

/-- `commit_score = min(100, max(0, 40 * (1 + (total_commits / 1000) ** 0.3)))`. -/
noncomputable def commit_score (total_commits : ℝ) : ℝ :=
  metric_normalizer 40 1000 0.3 total_commits

/-- `frequency_score = min(100, max(0, 30 * (1 + (commit_frequency / 10) ** 0.5)))`. -/
noncomputable def frequency_score (commit_frequency : ℝ) : ℝ :=
  metric_normalizer 30 10 0.5 commit_frequency

/-- `development_velocity = contributor_score * 0.3 + commit_score * 0.4 + frequency_score * 0.3`. -/
noncomputable def development_velocity (contributors total_commits commit_frequency : ℝ) : ℝ :=
  contributor_score contributors * 0.3 + commit_score total_commits * 0.4 +
    frequency_score commit_frequency * 0.3

/-- `base_tech_quality = (overall*0.4 + health*0.3 + activity*0.3) * 100`,
each score defaulting to `0.5` when absent. -/
def base_tech_quality (s : RepoScores) : ℚ :=
  (s.overall_score.getD 0.5 * 0.4 + s.health_score.getD 0.5 * 0.3 +
    s.activity_score.getD 0.5 * 0.3) * 100

/-- The `technology_quality` component: the base formula, enhanced with the
codebase analysis when one with status `"success"` is present
(`base*0.3 + maintainability*0.4 + arch_score + dep_score`). -/
def technology_quality (s : RepoScores) (ca : Option CodebaseAnalysis) : ℚ :=
  match ca with
  | some c =>
    if c.status = "success" then
      let maintainability := c.quality_scores.maintainability_index.getD 50
      let code_quality_score := maintainability * 0.4
      let modularity := c.architecture.modularity_score.getD 5 * 10
      let coupling := c.architecture.coupling_score.getD 5
      let cohesion := c.architecture.cohesion_score.getD 5 * 10
      let arch_score := (modularity * 0.4 + (10 - coupling) * 10 * 0.3 + cohesion * 0.3) * 0.3
      let vulns := c.dependencies.security_vulnerabilities.getD 0
      let outdated_pct := c.dependencies.outdated_percentage.getD 0
      let dep_score := max 0 (100 - vulns * 5 - outdated_pct * 0.5) * 0.3
      base_tech_quality s * 0.3 + code_quality_score + arch_score + dep_score
    else base_tech_quality s
  | none => base_tech_quality s

/-- `market_potential = min(100, max(0, 25*(1+(stars/5000)**0.4) +
20*(1+(forks/1000)**0.4) + 15*(1+(contributors/100)**0.3)))`. -/
noncomputable def market_potential (stars forks contributors : ℝ) : ℝ :=
  min 100 (max 0 (25 * (1 + (stars / 5000) ^ (0.4:ℝ)) +
    20 * (1 + (forks / 1000) ^ (0.4:ℝ)) + 15 * (1 + (contributors / 100) ^ (0.3:ℝ))))

/-- `network_effects = min(100, max(0, 50*(1+(forks/2000)**0.3) +
50*(1+(watchers/500)**0.3)))`. -/
noncomputable def network_effects (forks watchers : ℝ) : ℝ :=
  min 100 (max 0 (50 * (1 + (forks / 2000) ^ (0.3:ℝ)) +
    50 * (1 + (watchers / 500) ^ (0.3:ℝ))))

/-- `code_quality = maintainability*0.4 + test_cov*0.35 + doc_quality*0.25`
(readme quality is rescaled from 0-10 to 0-100). -/
def code_quality (c : CodebaseAnalysis) : ℚ :=
  let maintainability := c.quality_scores.maintainability_index.getD 50
  let test_cov := c.test_coverage.overall_coverage.getD 0
  let doc_quality := c.documentation.readme_quality_score.getD 0 * 10
  maintainability * 0.4 + test_cov * 0.35 + doc_quality * 0.25

/-- `security_score = max(0, 100 - critical_vulns*20 - vulns*5)`. -/
def security_score (c : CodebaseAnalysis) : ℚ :=
  max 0 (100 - c.dependencies.critical_vulnerabilities.getD 0 * 20 -
    c.dependencies.security_vulnerabilities.getD 0 * 5)

/-! ### The component-score mapping and the weighted unicorn score -/

/-- Keys of the `scores` dictionary built by `calculate_unicorn_hunter`. -/
inductive ScoreKey
  | community_momentum
  | development_velocity
  | technology_quality
  | market_potential
  | network_effects
  | code_quality
  | maintainability
  | test_reliability
  | security_posture
deriving DecidableEq

/-- Dictionary lookup over an association list. -/
def lookupKey {β : Type} (l : List (ScoreKey × β)) (k : ScoreKey) : Option β :=
  match l with
  | [] => none
  | (k', v) :: t => if k' = k then some v else lookupKey t k

/-- The four entries appended to the `scores` dictionary: values from the
codebase analysis when present with status `"success"`, all `0` otherwise. -/
noncomputable def extra_scores (ca : Option CodebaseAnalysis) : List (ScoreKey × ℝ) :=
  match ca with
  | some c =>
    if c.status = "success" then
      [(ScoreKey.code_quality, ((pyRound (code_quality c) 1 : ℚ) : ℝ)),
       (ScoreKey.maintainability,
         ((pyRound (c.quality_scores.maintainability_index.getD 50) 1 : ℚ) : ℝ)),
       (ScoreKey.test_reliability,
         ((pyRound (c.test_coverage.overall_coverage.getD 0) 1 : ℚ) : ℝ)),
       (ScoreKey.security_posture, ((pyRound (security_score c) 1 : ℚ) : ℝ))]
    else
      [(ScoreKey.code_quality, 0), (ScoreKey.maintainability, 0),
       (ScoreKey.test_reliability, 0), (ScoreKey.security_posture, 0)]
  | none =>
    [(ScoreKey.code_quality, 0), (ScoreKey.maintainability, 0),
     (ScoreKey.test_reliability, 0), (ScoreKey.security_posture, 0)]

/-- The `scores` dictionary of `calculate_unicorn_hunter`, with every entry
rounded to one decimal as in the source. -/
noncomputable def component_scores (d : RepoData) (ca : Option CodebaseAnalysis) :
    List (ScoreKey × ℝ) :=
  let stars : ℝ := (d.metrics.stars.getD 0 : ℚ)
  let forks : ℝ := (d.metrics.forks.getD 0 : ℚ)
  let watchers : ℝ := (d.metrics.watchers.getD 0 : ℚ)
  let contributors : ℝ := (d.development.contributors.getD 0 : ℚ)
  let total_commits : ℝ := (d.development.total_commits.getD 0 : ℚ)
  let commit_frequency : ℝ := (d.development.commit_frequency.getD 0 : ℚ)
  [(ScoreKey.community_momentum, pyRound (community_momentum stars forks watchers) 1),
   (ScoreKey.development_velocity,
     pyRound (development_velocity contributors total_commits commit_frequency) 1),
   (ScoreKey.technology_quality, ((pyRound (technology_quality d.scores ca) 1 : ℚ) : ℝ)),
   (ScoreKey.market_potential, pyRound (market_potential stars forks contributors) 1),
   (ScoreKey.network_effects, pyRound (network_effects forks watchers) 1)]
  ++ extra_scores ca

/-- The weight table used when no codebase analysis is available. -/
def baseline_weights : List (ScoreKey × ℚ) :=
  [(ScoreKey.community_momentum, 0.25), (ScoreKey.development_velocity, 0.20),
   (ScoreKey.technology_quality, 0.20), (ScoreKey.market_potential, 0.20),
   (ScoreKey.network_effects, 0.15)]

/-- The weight table used when a codebase analysis is available. -/
def enriched_weights : List (ScoreKey × ℚ) :=
  [(ScoreKey.community_momentum, 0.25), (ScoreKey.development_velocity, 0.15),
   (ScoreKey.technology_quality, 0.20), (ScoreKey.market_potential, 0.15),
   (ScoreKey.network_effects, 0.10), (ScoreKey.code_quality, 0.10),
   (ScoreKey.security_posture, 0.05)]

/-- `unicorn_score = round(sum(scores[key] * weights[key] for key in weights
if key in scores), 1)`. -/
noncomputable def unicorn_score (d : RepoData) (ca : Option CodebaseAnalysis) : ℝ :=
  let scores := component_scores d ca
  let weights := if has_codebase_analysis ca then enriched_weights else baseline_weights
  pyRound ((weights.map (fun p =>
    match lookupKey scores p.1 with
    | some v => v * (p.2 : ℝ)
    | none => 0)).sum) 1

/-! ### Valuation mapper and tier classification -/

/-- `conservative = min(max_valuation, max(0, (u/100)**2.2 * 5_000_000))`. -/
noncomputable def conservative_valuation (u : ℝ) : ℝ :=
  min 1000000000 (max 0 ((u / 100) ^ (2.2:ℝ) * 5000000))

/-- `realistic = min(max_valuation, max(0, (u/100)**2.5 * 10_000_000))`. -/
noncomputable def realistic_valuation (u : ℝ) : ℝ :=
  min 1000000000 (max 0 ((u / 100) ^ (2.5:ℝ) * 10000000))

/-- `optimistic = min(max_valuation, max(0, (u/100)**2.8 * 20_000_000))`. -/
noncomputable def optimistic_valuation (u : ℝ) : ℝ :=
  min 1000000000 (max 0 ((u / 100) ^ (2.8:ℝ) * 20000000))

/-- The three valuation figures as reported (`round(v, 2)` each). -/
structure SpeculativeRanges where
  conservative : ℝ
  realistic : ℝ
  optimistic : ℝ

/-- The `speculative_valuation_ranges` entry of the unicorn-hunter result. -/
noncomputable def speculative_valuation_ranges (u : ℝ) : SpeculativeRanges :=
  ⟨pyRound (conservative_valuation u) 2, pyRound (realistic_valuation u) 2,
    pyRound (optimistic_valuation u) 2⟩

open Classical in
/-- The tier classification of `calculate_unicorn_hunter`. -/
noncomputable def tier (u : ℝ) : String :=
  if 90 ≤ u then "unicorn"
  else if 75 ≤ u then "soaring"
  else if 60 ≤ u then "rising_star"
  else if 45 ≤ u then "promising"
  else if 30 ≤ u then "early_stage"
  else "seed_stage"

/-! ### Alternate valuation methods -/

/-- `calculate_cost_based`: `team_size * 160 * development_months * hourly_rate`. -/
def calculate_cost_based (i : ValuationInputs) : ℚ :=
  i.team_size * 160 * i.development_months * i.hourly_rate

/-- One entry of the comparables list passed to `calculate_market_based`. -/
structure Comparable where
  value : Option ℚ
  stars : Option ℚ
deriving DecidableEq

/-- `sum(comp.get("stars", 1) for comp in comparable_data)`. -/
def total_comparable_stars (comps : List Comparable) : ℚ :=
  (comps.map (fun c => c.stars.getD 1)).sum

/-- `sum(comp.get("value", 0) for comp in comparable_data)`. -/
def total_comparable_value (comps : List Comparable) : ℚ :=
  (comps.map (fun c => c.value.getD 0)).sum

/-- `calculate_market_based`: star-multiple fallback without comparables,
implied stars-per-dollar ratio otherwise, `0` when the comparables have no
stars in total. -/
def calculate_market_based (i : ValuationInputs) (comparable_data : List Comparable) : ℚ :=
  if comparable_data = [] then
    i.repo_data.metrics.stars.getD 0 * 1000 * i.market_multiplier
  else if total_comparable_stars comparable_data = 0 then 0
  else
    i.repo_data.metrics.stars.getD 0 *
      (total_comparable_value comparable_data / total_comparable_stars comparable_data) *
      i.market_multiplier

/-- `total_score` of `calculate_scorecard`: the sum of the six weighted
factor scores. -/
def scorecard_total_score (i : ValuationInputs) : ℚ :=
  let repo_metrics := i.repo_data.metrics
  let repo_scores := i.repo_data.scores
  let technology_quality_factor := min (repo_scores.overall_score.getD 0.5) 1 * 0.25
  let market_opportunity :=
    min ((repo_metrics.stars.getD 0 + repo_metrics.forks.getD 0) / 1000) 1 * 0.20
  let development_team := min (i.repo_data.development.contributors.getD 0 / 50) 1 * 0.15
  let competitive_position := repo_scores.activity_score.getD 0.5 * 0.15
  let deployment_readiness := (0.8 : ℚ) * 0.15
  let documentation_factor := repo_scores.health_score.getD 0.5 * 0.10
  technology_quality_factor + market_opportunity + development_team +
    competitive_position + deployment_readiness + documentation_factor

/-- The `valuation_range` of a scorecard result. -/
structure ScorecardRange where
  low : ℚ
  medium : ℚ
  high : ℚ

/-- `valuation_range` of `calculate_scorecard`:
`round(max(multiplier * total_score, floor), 2)` per tier. -/
def scorecard_valuation_range (i : ValuationInputs) : ScorecardRange :=
  let total_score := scorecard_total_score i
  ⟨pyRound (max (10000 * total_score) 5000) 2,
   pyRound (max (50000 * total_score) 25000) 2,
   pyRound (max (250000 * total_score) 100000) 2⟩

/-! ### Adoption score (`package_stats.py`) -/

/-- A package-statistics record as consumed by `calculate_adoption_score`
(the union of the registry-specific stats fields). -/
structure PackageStats where
  status : String
  package_manager : Option String
  weekly_downloads : Option ℚ
  monthly_downloads : Option ℚ
  total_downloads : Option ℚ
  recent_downloads : Option ℚ

/-- `calculate_adoption_score` of `PackageStatsTool`, branch for branch. -/
def calculate_adoption_score (s : PackageStats) : ℚ :=
  if s.status ≠ "success" then 0
  else if s.package_manager = some "npm" then
    let weekly_downloads := s.weekly_downloads.getD 0
    if weekly_downloads ≥ 100000 then 100
    else if weekly_downloads ≥ 10000 then 50 + weekly_downloads / 10000 * 50
    else if weekly_downloads ≥ 1000 then 25 + (weekly_downloads - 1000) / 9000 * 25
    else if weekly_downloads ≥ 100 then 10 + (weekly_downloads - 100) / 900 * 15
    else min 10 (weekly_downloads / 10)
  else if s.package_manager = some "pypi" then
    let monthly_downloads := s.monthly_downloads.getD 0
    if monthly_downloads ≥ 500000 then 100
    else if monthly_downloads ≥ 50000 then 50 + monthly_downloads / 50000 * 50
    else if monthly_downloads ≥ 5000 then 25 + (monthly_downloads - 5000) / 45000 * 25
    else if monthly_downloads ≥ 500 then 10 + (monthly_downloads - 500) / 4500 * 15
    else min 10 (monthly_downloads / 50)
  else if s.package_manager = some "cargo" then
    let total_downloads := s.total_downloads.getD 0
    let recent_downloads := s.recent_downloads.getD 0
    let base_score :=
      if total_downloads ≥ 1000000 then (100 : ℚ)
      else if total_downloads ≥ 100000 then 50 + (total_downloads - 100000) / 900000 * 50
      else if total_downloads ≥ 10000 then 25 + (total_downloads - 10000) / 90000 * 25
      else min 25 (total_downloads / 400)
    let recent_boost := min 20 (recent_downloads / 1000)
    min 100 (base_score + recent_boost)
  else 0

/-! ### Helper lemmas for evaluating real powers at dyadic points -/

lemma pow_rpow_eval (b : ℝ) (hb : 0 ≤ b) (m k : ℕ) (e : ℝ) (h : (m : ℝ) * e = (k : ℝ)) :
    (b ^ (m:ℕ)) ^ e = b ^ (k:ℕ) := by
  rw [← Real.rpow_natCast b m, ← Real.rpow_mul hb, h, Real.rpow_natCast]

lemma rpow_pow_eval (b : ℝ) (hb : 0 ≤ b) (e : ℝ) (m k : ℕ) (h : e * (m : ℝ) = (k : ℝ)) :
    (b ^ e) ^ (m:ℕ) = b ^ (k:ℕ) := by
  rw [← Real.rpow_natCast (b ^ e) m, ← Real.rpow_mul hb, h, Real.rpow_natCast]

lemma star_score_sat : star_score 1024000 = 100 := by
  unfold star_score metric_normalizer
  have h1 : (1024000:ℝ) / 1000 = 2 ^ (10:ℕ) := by norm_num
  rw [h1, pow_rpow_eval 2 (by norm_num) 10 3 0.3 (by norm_num)]
  norm_num

lemma star_score_sat2 : star_score 1048576000 = 100 := by
  unfold star_score metric_normalizer
  have h1 : (1048576000:ℝ) / 1000 = 2 ^ (20:ℕ) := by norm_num
  rw [h1, pow_rpow_eval 2 (by norm_num) 20 6 0.3 (by norm_num)]
  norm_num

lemma fork_score_sat : fork_score 512000 = 100 := by
  unfold fork_score metric_normalizer
  have h1 : (512000:ℝ) / 500 = 2 ^ (10:ℕ) := by norm_num
  rw [h1, pow_rpow_eval 2 (by norm_num) 10 3 0.3 (by norm_num)]
  norm_num

lemma watcher_score_sat : watcher_score 209715200 = 100 := by
  unfold watcher_score metric_normalizer
  have h1 : (209715200:ℝ) / 200 = 2 ^ (20:ℕ) := by norm_num
  rw [h1, pow_rpow_eval 2 (by norm_num) 20 6 0.3 (by norm_num)]
  norm_num

lemma contributor_score_sat : contributor_score 51200 = 100 := by
  unfold contributor_score metric_normalizer
  have h1 : (51200:ℝ) / 50 = 2 ^ (10:ℕ) := by norm_num
  rw [h1, pow_rpow_eval 2 (by norm_num) 10 4 0.4 (by norm_num)]
  norm_num

lemma commit_score_sat : commit_score 1024000 = 100 := by
  unfold commit_score metric_normalizer
  have h1 : (1024000:ℝ) / 1000 = 2 ^ (10:ℕ) := by norm_num
  rw [h1, pow_rpow_eval 2 (by norm_num) 10 3 0.3 (by norm_num)]
  norm_num

lemma frequency_score_sat : frequency_score 10240 = 100 := by
  unfold frequency_score metric_normalizer
  have h1 : (10240:ℝ) / 10 = 2 ^ (10:ℕ) := by norm_num
  rw [h1, pow_rpow_eval 2 (by norm_num) 10 5 0.5 (by norm_num)]
  norm_num

/-- With nonnegative forks and watchers the network-effects component always
saturates: its two base terms already sum to 100. -/
lemma network_effects_full {f w : ℝ} (hf : 0 ≤ f) (hw : 0 ≤ w) :
    network_effects f w = 100 := by
  unfold network_effects
  have h1 : (0:ℝ) ≤ (f / 2000) ^ (0.3:ℝ) := Real.rpow_nonneg (by positivity) _
  have h2 : (0:ℝ) ≤ (w / 500) ^ (0.3:ℝ) := Real.rpow_nonneg (by positivity) _
  have hsum : (100:ℝ) ≤ 50 * (1 + (f / 2000) ^ (0.3:ℝ)) + 50 * (1 + (w / 500) ^ (0.3:ℝ)) := by
    nlinarith
  rw [max_eq_right (by linarith), min_eq_left hsum]

lemma market_potential_sat : market_potential 1024000 512000 51200 = 100 := by
  unfold market_potential
  have h1 : (0:ℝ) ≤ ((1024000:ℝ) / 5000) ^ (0.4:ℝ) := Real.rpow_nonneg (by norm_num) _
  have h3 : (0:ℝ) ≤ ((51200:ℝ) / 100) ^ (0.3:ℝ) := Real.rpow_nonneg (by norm_num) _
  have h2 : (4:ℝ) ≤ ((512000:ℝ) / 1000) ^ (0.4:ℝ) := by
    have hle : ((2:ℝ) ^ (5:ℕ)) ^ (0.4:ℝ) ≤ ((512000:ℝ) / 1000) ^ (0.4:ℝ) :=
      Real.rpow_le_rpow (by norm_num) (by norm_num) (by norm_num)
    rw [pow_rpow_eval 2 (by norm_num) 5 2 0.4 (by norm_num)] at hle
    norm_num at hle
    linarith
  have hsum : (100:ℝ) ≤ 25 * (1 + ((1024000:ℝ) / 5000) ^ (0.4:ℝ)) +
      20 * (1 + ((512000:ℝ) / 1000) ^ (0.4:ℝ)) + 15 * (1 + ((51200:ℝ) / 100) ^ (0.3:ℝ)) := by
    nlinarith
  rw [max_eq_right (by linarith), min_eq_left hsum]

/-! ### Concrete records used as inputs in the theorems below -/

/-- A repository record with large (but well-formed) metrics: every
saturating metric is a power of two times its reference scale, and all
three externally-supplied scores are the maximal `1.0`. -/
def bigRepo : RepoData :=
  ⟨⟨some 1024000, some 512000, some 209715200⟩,
   ⟨some 1, some 1, some 1⟩,
   ⟨some 51200, some 1024000, some 10240⟩⟩

/-- A successful codebase analysis with every field at the top of its
documented range (`maintainability_index`, `overall_coverage` in [0,100],
architecture scores in [0,10], `readme_quality_score` in [0,10], no
vulnerabilities, nothing outdated). -/
def perfectCA : CodebaseAnalysis :=
  ⟨"success", ⟨some 100⟩, ⟨some 10, some 0, some 10⟩, ⟨some 0, some 0, some 0⟩,
    ⟨some 100⟩, ⟨some 10⟩⟩

/-- A successful codebase analysis carrying no fields at all (every consumer
falls back to its documented default). -/
def emptyCA : CodebaseAnalysis :=
  ⟨"success", ⟨none⟩, ⟨none, none, none⟩, ⟨none, none, none⟩, ⟨none⟩, ⟨none⟩⟩

/-- A repository-data record carrying no fields at all. -/
def emptyRepo : RepoData := ⟨⟨none, none, none⟩, ⟨none, none, none⟩, ⟨none, none, none⟩⟩

/-- A successful npm package-statistics record with the given weekly
download count. -/
def npmStats (w : ℚ) : PackageStats := ⟨"success", some "npm", some w, none, none, none⟩

/-! ### Claim theorems -/

/-- Claim C1.  The claim states that `unicorn_score` always lies in
[0,100].  The code violates it: on `bigRepo` with the in-range codebase
analysis `perfectCA`, the enhanced technology-quality blend (whose weights
sum to 1.3, not 1.0) evaluates to 130, and the weighted unicorn score
evaluates to 106 — above the documented maximum of 100. -/
theorem C1_unicorn_score_exceeds_hundred :
    unicorn_score bigRepo (some perfectCA) = 106 := by
  have hcomm : community_momentum 1024000 512000 209715200 = 100 := by
    unfold community_momentum
    rw [star_score_sat, fork_score_sat, watcher_score_sat]
    norm_num
  have hvel : development_velocity 51200 1024000 10240 = 100 := by
    unfold development_velocity
    rw [contributor_score_sat, commit_score_sat, frequency_score_sat]
    norm_num
  have htech : technology_quality bigRepo.scores (some perfectCA) = 130 := by
    norm_num [technology_quality, base_tech_quality, bigRepo, perfectCA]
  have hcq : code_quality perfectCA = 100 := by norm_num [code_quality, perfectCA]
  have hsec : security_score perfectCA = 100 := by norm_num [security_score, perfectCA]
  have hnet : network_effects 512000 209715200 = 100 :=
    network_effects_full (by norm_num) (by norm_num)
  have hpr100 : pyRound (100:ℝ) 1 = 100 := pyRound_eq_self 1000 (by norm_num)
  have hpr100q : pyRound (100:ℚ) 1 = 100 := pyRound_eq_self 1000 (by norm_num)
  have hpr130q : pyRound (130:ℚ) 1 = 130 := pyRound_eq_self 1300 (by norm_num)
  have hfinal : pyRound (106:ℝ) 1 = 106 := pyRound_eq_self 1060 (by norm_num)
  have hst : perfectCA.status = "success" := rfl
  have hm1 : bigRepo.metrics.stars = some 1024000 := rfl
  have hm2 : bigRepo.metrics.forks = some 512000 := rfl
  have hm3 : bigRepo.metrics.watchers = some 209715200 := rfl
  have hd1 : bigRepo.development.contributors = some 51200 := rfl
  have hd2 : bigRepo.development.total_commits = some 1024000 := rfl
  have hd3 : bigRepo.development.commit_frequency = some 10240 := rfl
  have hq1 : perfectCA.quality_scores.maintainability_index = some 100 := rfl
  have hq2 : perfectCA.test_coverage.overall_coverage = some 100 := rfl
  simp only [unicorn_score, component_scores, extra_scores, has_codebase_analysis,
    hst, hm1, hm2, hm3, hd1, hd2, hd3, hq1, hq2, Option.getD_some]
  norm_num [hcomm, hvel, htech, hcq, hsec, hnet, hpr100, hpr100q, hpr130q]
  simp only [lookupKey, enriched_weights, List.map, List.sum_cons, List.sum_nil,
    reduceCtorEq, ite_false, ite_true, if_false, if_true]
  rw [market_potential_sat, hpr100]
  norm_num [hfinal]

/-- Claim C3.  The claim states the adoption score is in [0,100] and
monotone in the raw count.  The npm branch violates both: at 20000 weekly
downloads it returns 150, and it is larger at 99999 than at 100000 — the
code contradicts its own docstring ("a score (0-100)") and its comment
("10k = 50"). -/
theorem C3_adoption_score_out_of_range :
    calculate_adoption_score (npmStats 20000) = 150 ∧
    calculate_adoption_score (npmStats 100000) < calculate_adoption_score (npmStats 99999) := by
  norm_num [calculate_adoption_score, npmStats]

/-- Claim C4.  The endpoints behave as claimed (0 ↦ 0 and 100000 ↦ 100,
and the interpolation is continuous at 100 and 1000), but at the
documented breakpoint 10000 the npm score jumps from below 50 straight to
100, a discontinuity contradicting the code's own comment "10k = 50". -/
theorem C4_adoption_breakpoint_jump :
    calculate_adoption_score (npmStats 0) = 0 ∧
    calculate_adoption_score (npmStats 100000) = 100 ∧
    calculate_adoption_score (npmStats 9999) < 50 ∧
    calculate_adoption_score (npmStats 10000) = 100 := by
  norm_num [calculate_adoption_score, npmStats]

/-- Claim C5 (counterexample).  The claim asserts that the presence or
absence of a codebase analysis changes no component score other than
`code_quality` and `security_posture`; but the `technology_quality`
component is deliberately recomputed when an analysis is present (80
versus 50 on an otherwise empty input). -/
theorem C5_component_frame_counterexample :
    lookupKey (component_scores emptyRepo (some emptyCA)) ScoreKey.technology_quality ≠
      lookupKey (component_scores emptyRepo none) ScoreKey.technology_quality := by
  have h1 : technology_quality emptyRepo.scores (some emptyCA) = 80 := by
    norm_num [technology_quality, base_tech_quality, emptyRepo, emptyCA]
  have h2 : technology_quality emptyRepo.scores none = 50 := by
    norm_num [technology_quality, base_tech_quality, emptyRepo]
  have h80 : pyRound (80:ℚ) 1 = 80 := pyRound_eq_self 800 (by norm_num)
  have h50 : pyRound (50:ℚ) 1 = 50 := pyRound_eq_self 500 (by norm_num)
  simp only [component_scores, lookupKey, reduceCtorEq, ite_false, ite_true, if_false,
    if_true, h1, h2, h80, h50]
  norm_num

/-- Claim C5 (amended).  When no codebase analysis is supplied the
`code_quality` and `security_posture` component scores are 0, the baseline
weight table has no entries for those keys, and the presence or absence of
an analysis leaves `community_momentum`, `development_velocity`,
`market_potential` and `network_effects` unchanged — only
`technology_quality` (deliberately enriched) can change. -/
theorem C5_component_frame_amended (d : RepoData) (ca : CodebaseAnalysis) :
    lookupKey (component_scores d none) ScoreKey.code_quality = some 0 ∧
    lookupKey (component_scores d none) ScoreKey.security_posture = some 0 ∧
    lookupKey baseline_weights ScoreKey.code_quality = none ∧
    lookupKey baseline_weights ScoreKey.security_posture = none ∧
    lookupKey (component_scores d (some ca)) ScoreKey.community_momentum =
      lookupKey (component_scores d none) ScoreKey.community_momentum ∧
    lookupKey (component_scores d (some ca)) ScoreKey.development_velocity =
      lookupKey (component_scores d none) ScoreKey.development_velocity ∧
    lookupKey (component_scores d (some ca)) ScoreKey.market_potential =
      lookupKey (component_scores d none) ScoreKey.market_potential ∧
    lookupKey (component_scores d (some ca)) ScoreKey.network_effects =
      lookupKey (component_scores d none) ScoreKey.network_effects :=
  ⟨rfl, rfl, rfl, rfl, rfl, rfl, rfl, rfl⟩

/-- Claim C9.  `calculate_market_based` guards its ratio: a non-empty
comparables list whose stars sum to 0 yields 0 instead of a division by
zero, and with no comparables the result is
`stars * 1000 * market_multiplier`. -/
theorem C9_market_based_guards (i : ValuationInputs) (comps : List Comparable)
    (hne : comps ≠ []) (hzero : total_comparable_stars comps = 0) :
    calculate_market_based i comps = 0 ∧
    calculate_market_based i [] =
      i.repo_data.metrics.stars.getD 0 * 1000 * i.market_multiplier := by
  constructor
  · unfold calculate_market_based
    rw [if_neg hne, if_pos hzero]
  · rfl

/-- Inputs built from the empty repository record with all configuration
parameters left at their defaults. -/
def witnessInputs : ValuationInputs := { repo_data := emptyRepo }

/-- Claim C9, witnessed on a one-element comparables list with zero stars. -/
theorem C9_market_based_guards_witness :
    ([⟨none, some 0⟩] : List Comparable) ≠ [] ∧
    total_comparable_stars [⟨none, some 0⟩] = 0 ∧
    (calculate_market_based witnessInputs [⟨none, some 0⟩] = 0 ∧
     calculate_market_based witnessInputs [] =
       witnessInputs.repo_data.metrics.stars.getD 0 * 1000 * witnessInputs.market_multiplier) :=
  ⟨by simp, by norm_num [total_comparable_stars],
    C9_market_based_guards witnessInputs [⟨none, some 0⟩] (by simp)
      (by norm_num [total_comparable_stars])⟩

/-- A successful codebase analysis whose consumed fields are explicitly the
documented midpoint defaults. -/
def midCA : CodebaseAnalysis :=
  ⟨"success", ⟨some 50⟩, ⟨some 5, some 5, some 5⟩, ⟨some 0, none, some 0⟩, ⟨none⟩, ⟨none⟩⟩

/-- Claim C10.  Missing repository scores default to the midpoint 0.5 (so a
repository with no scores record has base technology quality 50), and in
the enrichment branch a missing `maintainability_index` defaults to 50 and
missing `modularity`/`coupling`/`cohesion` scores default to 5: supplying
those values explicitly changes nothing. -/
theorem C10_midpoint_defaults :
    base_tech_quality ⟨none, none, none⟩ = 50 ∧
    technology_quality ⟨none, none, none⟩ none = 50 ∧
    (∀ x y : Option ℚ, base_tech_quality ⟨none, x, y⟩ = base_tech_quality ⟨some 0.5, x, y⟩) ∧
    (∀ x y : Option ℚ, base_tech_quality ⟨x, none, y⟩ = base_tech_quality ⟨x, some 0.5, y⟩) ∧
    (∀ x y : Option ℚ, base_tech_quality ⟨x, y, none⟩ = base_tech_quality ⟨x, y, some 0.5⟩) ∧
    (∀ s : RepoScores, technology_quality s (some emptyCA) = technology_quality s (some midCA)) := by
  refine ⟨by norm_num [base_tech_quality],
    by norm_num [technology_quality, base_tech_quality],
    fun x y => rfl, fun x y => rfl, fun x y => rfl, fun s => rfl⟩

/-- Claim C6.  Tier assignment is total on [0,100]: it always yields one of
the six labels, each label is assumed exactly on its half-open band with an
inclusive lower bound (90/75/60/45/30), a score of 90 maps to "unicorn",
89.999 maps to "soaring", and everything below 30 is "seed_stage". -/
theorem C6_tier_total (u : ℝ) (h0 : 0 ≤ u) (h100 : u ≤ 100) :
    tier 90 = "unicorn" ∧ tier 89.999 = "soaring" ∧
    (tier u = "unicorn" ∨ tier u = "soaring" ∨ tier u = "rising_star" ∨
      tier u = "promising" ∨ tier u = "early_stage" ∨ tier u = "seed_stage") ∧
    (tier u = "unicorn" ↔ 90 ≤ u) ∧
    (tier u = "soaring" ↔ 75 ≤ u ∧ u < 90) ∧
    (tier u = "rising_star" ↔ 60 ≤ u ∧ u < 75) ∧
    (tier u = "promising" ↔ 45 ≤ u ∧ u < 60) ∧
    (tier u = "early_stage" ↔ 30 ≤ u ∧ u < 45) ∧
    (tier u = "seed_stage" ↔ u < 30) := by
  have h90 : tier (90:ℝ) = "unicorn" := by unfold tier; norm_num
  have h89 : tier (89.999:ℝ) = "soaring" := by unfold tier; norm_num
  refine ⟨h90, h89, ?_, ?_, ?_, ?_, ?_, ?_, ?_⟩ <;>
    · unfold tier
      split_ifs with h1 h2 h3 h4 h5 <;> simp_all <;> try constructor
      all_goals try intro
      all_goals try linarith

/-- Claim C6, instantiated at the in-range score 50. -/
theorem C6_tier_total_witness :
    (0:ℝ) ≤ 50 ∧ (50:ℝ) ≤ 100 ∧
    (tier 90 = "unicorn" ∧ tier 89.999 = "soaring" ∧
    (tier (50:ℝ) = "unicorn" ∨ tier (50:ℝ) = "soaring" ∨ tier (50:ℝ) = "rising_star" ∨
      tier (50:ℝ) = "promising" ∨ tier (50:ℝ) = "early_stage" ∨ tier (50:ℝ) = "seed_stage") ∧
    (tier (50:ℝ) = "unicorn" ↔ 90 ≤ (50:ℝ)) ∧
    (tier (50:ℝ) = "soaring" ↔ 75 ≤ (50:ℝ) ∧ (50:ℝ) < 90) ∧
    (tier (50:ℝ) = "rising_star" ↔ 60 ≤ (50:ℝ) ∧ (50:ℝ) < 75) ∧
    (tier (50:ℝ) = "promising" ↔ 45 ≤ (50:ℝ) ∧ (50:ℝ) < 60) ∧
    (tier (50:ℝ) = "early_stage" ↔ 30 ≤ (50:ℝ) ∧ (50:ℝ) < 45) ∧
    (tier (50:ℝ) = "seed_stage" ↔ (50:ℝ) < 30)) :=
  ⟨by norm_num, by norm_num, C6_tier_total 50 (by norm_num) (by norm_num)⟩

/-- Claim C8.  The scorecard valuation range is ordered
`low ≤ medium ≤ high`, and each tier is at least its floor
(5000/25000/100000), given in-range scores and non-negative metrics. -/
theorem C8_scorecard_range_ordered (i : ValuationInputs)
    (ho0 : 0 ≤ i.repo_data.scores.overall_score.getD 0.5)
    (ho1 : i.repo_data.scores.overall_score.getD 0.5 ≤ 1)
    (hh0 : 0 ≤ i.repo_data.scores.health_score.getD 0.5)
    (hh1 : i.repo_data.scores.health_score.getD 0.5 ≤ 1)
    (ha0 : 0 ≤ i.repo_data.scores.activity_score.getD 0.5)
    (ha1 : i.repo_data.scores.activity_score.getD 0.5 ≤ 1)
    (hst : 0 ≤ i.repo_data.metrics.stars.getD 0)
    (hfk : 0 ≤ i.repo_data.metrics.forks.getD 0)
    (hct : 0 ≤ i.repo_data.development.contributors.getD 0) :
    (scorecard_valuation_range i).low ≤ (scorecard_valuation_range i).medium ∧
    (scorecard_valuation_range i).medium ≤ (scorecard_valuation_range i).high ∧
    5000 ≤ (scorecard_valuation_range i).low ∧
    25000 ≤ (scorecard_valuation_range i).medium ∧
    100000 ≤ (scorecard_valuation_range i).high := by
  have hT : 0 ≤ scorecard_total_score i := by
    unfold scorecard_total_score
    have h1 : 0 ≤ min (i.repo_data.scores.overall_score.getD 0.5) 1 :=
      le_min ho0 (by norm_num)
    have h2 : 0 ≤ min ((i.repo_data.metrics.stars.getD 0 +
        i.repo_data.metrics.forks.getD 0) / 1000) 1 :=
      le_min (by positivity) (by norm_num)
    have h3 : 0 ≤ min (i.repo_data.development.contributors.getD 0 / 50) 1 :=
      le_min (by positivity) (by norm_num)
    nlinarith
  have hl : max (10000 * scorecard_total_score i) 5000 ≤
      max (50000 * scorecard_total_score i) 25000 :=
    max_le_max (by nlinarith) (by norm_num)
  have hm : max (50000 * scorecard_total_score i) 25000 ≤
      max (250000 * scorecard_total_score i) 100000 :=
    max_le_max (by nlinarith) (by norm_num)
  have hf1 : (5000:ℚ) ≤ pyRound (max (10000 * scorecard_total_score i) 5000) 2 := by
    calc (5000:ℚ) = pyRound (5000:ℚ) 2 := (pyRound_eq_self 500000 (by norm_num)).symm
      _ ≤ _ := pyRound_mono 2 (le_max_right _ _)
  have hf2 : (25000:ℚ) ≤ pyRound (max (50000 * scorecard_total_score i) 25000) 2 := by
    calc (25000:ℚ) = pyRound (25000:ℚ) 2 := (pyRound_eq_self 2500000 (by norm_num)).symm
      _ ≤ _ := pyRound_mono 2 (le_max_right _ _)
  have hf3 : (100000:ℚ) ≤ pyRound (max (250000 * scorecard_total_score i) 100000) 2 := by
    calc (100000:ℚ) = pyRound (100000:ℚ) 2 := (pyRound_eq_self 10000000 (by norm_num)).symm
      _ ≤ _ := pyRound_mono 2 (le_max_right _ _)
  exact ⟨pyRound_mono 2 hl, pyRound_mono 2 hm, hf1, hf2, hf3⟩

/-- Inputs with in-range scores and moderate metrics, used to witness the
scorecard claim. -/
def scorecardWitnessInputs : ValuationInputs :=
  { repo_data :=
      ⟨⟨some 100, some 20, some 10⟩, ⟨some 0.7, some 0.8, some 0.7⟩,
        ⟨some 5, some 200, none⟩⟩ }

/-- Claim C8, witnessed on concrete in-range inputs. -/
theorem C8_scorecard_range_ordered_witness :
    (0 ≤ scorecardWitnessInputs.repo_data.scores.overall_score.getD 0.5 ∧
     scorecardWitnessInputs.repo_data.scores.overall_score.getD 0.5 ≤ 1 ∧
     0 ≤ scorecardWitnessInputs.repo_data.metrics.stars.getD 0) ∧
    ((scorecard_valuation_range scorecardWitnessInputs).low ≤
      (scorecard_valuation_range scorecardWitnessInputs).medium ∧
     (scorecard_valuation_range scorecardWitnessInputs).medium ≤
      (scorecard_valuation_range scorecardWitnessInputs).high ∧
     5000 ≤ (scorecard_valuation_range scorecardWitnessInputs).low ∧
     25000 ≤ (scorecard_valuation_range scorecardWitnessInputs).medium ∧
     100000 ≤ (scorecard_valuation_range scorecardWitnessInputs).high) :=
  ⟨⟨by norm_num [scorecardWitnessInputs], by norm_num [scorecardWitnessInputs],
    by norm_num [scorecardWitnessInputs]⟩,
   C8_scorecard_range_ordered scorecardWitnessInputs
    (by norm_num [scorecardWitnessInputs]) (by norm_num [scorecardWitnessInputs])
    (by norm_num [scorecardWitnessInputs]) (by norm_num [scorecardWitnessInputs])
    (by norm_num [scorecardWitnessInputs]) (by norm_num [scorecardWitnessInputs])
    (by norm_num [scorecardWitnessInputs]) (by norm_num [scorecardWitnessInputs])
    (by norm_num [scorecardWitnessInputs])⟩

/-- Claim C7 (counterexample).  The normalizer is claimed to be strictly
increasing in the raw count, but once the clamp binds it is constant:
`star_score` takes the value 100 at both 1024000 and 1048576000 stars. -/
theorem C7_normalizer_not_strictly_increasing :
    ¬ StrictMonoOn star_score (Set.Ici (0:ℝ)) := by
  intro h
  have h1 := h (Set.mem_Ici.mpr (by norm_num : (0:ℝ) ≤ 1024000))
    (Set.mem_Ici.mpr (by norm_num : (0:ℝ) ≤ 1048576000)) (by norm_num)
  rw [star_score_sat, star_score_sat2] at h1
  exact lt_irrefl _ h1

/-- Claim C7 (amended).  Each normalizer sub-score equals
`min(100, max(0, w * (1 + (x/s)^e)))` (with `star_score` the
(20, 1000, 0.3) instance), is continuous and monotone non-decreasing on
nonnegative inputs, and is strictly increasing wherever the unclamped
value stays at or below 100. -/
theorem C7_normalizer_amended (w s e x y : ℝ) (hw : 0 < w) (hs : 0 < s)
    (he0 : 0 < e) (he1 : e < 1) (hx : 0 ≤ x) (hxy : x ≤ y) :
    star_score = metric_normalizer 20 1000 0.3 ∧
    metric_normalizer w s e x = min 100 (max 0 (w * (1 + (x / s) ^ e))) ∧
    metric_normalizer w s e x ≤ metric_normalizer w s e y ∧
    (x < y → w * (1 + (y / s) ^ e) ≤ 100 →
      metric_normalizer w s e x < metric_normalizer w s e y) ∧
    Continuous (metric_normalizer w s e) := by
  refine ⟨rfl, rfl, ?_, ?_, ?_⟩
  · unfold metric_normalizer
    have hdiv : x / s ≤ y / s := by gcongr
    have hr : (x / s) ^ e ≤ (y / s) ^ e :=
      Real.rpow_le_rpow (by positivity) hdiv he0.le
    exact min_le_min le_rfl (max_le_max le_rfl (by nlinarith))
  · intro hlt hcap
    unfold metric_normalizer
    have hdiv : x / s < y / s := by gcongr
    have hr : (x / s) ^ e < (y / s) ^ e :=
      Real.rpow_lt_rpow (by positivity) hdiv he0
    have hx0 : (0:ℝ) ≤ (x / s) ^ e := Real.rpow_nonneg (by positivity) e
    have hrawx : (0:ℝ) < w * (1 + (x / s) ^ e) := by nlinarith
    have hrawlt : w * (1 + (x / s) ^ e) < w * (1 + (y / s) ^ e) := by nlinarith
    rw [max_eq_right hrawx.le, max_eq_right (by linarith),
      min_eq_right (by linarith : w * (1 + (x / s) ^ e) ≤ 100),
      min_eq_right hcap]
    exact hrawlt
  · show Continuous fun t : ℝ => min 100 (max 0 (w * (1 + (t / s) ^ e)))
    have hpow : Continuous fun t : ℝ => t ^ e :=
      continuous_iff_continuousAt.mpr fun z =>
        Real.continuousAt_rpow_const z e (Or.inr he0.le)
    have hcomp : Continuous fun t : ℝ => (t / s) ^ e :=
      hpow.comp (continuous_id.div_const s)
    exact continuous_const.min
      (continuous_const.max (continuous_const.mul (continuous_const.add hcomp)))

/-- Claim C7, witnessed at the star-score constants with `x = 0`, `y = 1000`. -/
theorem C7_normalizer_amended_witness :
    ((0:ℝ) < 20 ∧ (0:ℝ) < 1000 ∧ (0:ℝ) < (0.3:ℝ) ∧ (0.3:ℝ) < 1 ∧
      (0:ℝ) ≤ 0 ∧ (0:ℝ) ≤ 1000) ∧
    (star_score = metric_normalizer 20 1000 0.3 ∧
     metric_normalizer 20 1000 0.3 0 =
       min 100 (max 0 (20 * (1 + ((0:ℝ) / 1000) ^ (0.3:ℝ)))) ∧
     metric_normalizer 20 1000 0.3 0 ≤ metric_normalizer 20 1000 0.3 1000 ∧
     ((0:ℝ) < 1000 → 20 * (1 + ((1000:ℝ) / 1000) ^ (0.3:ℝ)) ≤ 100 →
       metric_normalizer 20 1000 0.3 0 < metric_normalizer 20 1000 0.3 1000) ∧
     Continuous (metric_normalizer 20 1000 (0.3:ℝ))) :=
  ⟨⟨by norm_num, by norm_num, by norm_num, by norm_num, le_refl 0, by norm_num⟩,
   C7_normalizer_amended 20 1000 0.3 0 1000 (by norm_num) (by norm_num)
     (by norm_num) (by norm_num) (by norm_num) (by norm_num)⟩

/-- Below a tenth of the reference score the `0.3`-power stays above a
half; used for the valuation-ordering threshold. -/
lemma half_le_rpow_point_three {t : ℝ} (ht : 1/10 ≤ t) : 1/2 ≤ t ^ (0.3:ℝ) := by
  have hp : (((1:ℝ)/10) ^ (0.3:ℝ)) ^ (10:ℕ) = ((1:ℝ)/10) ^ (3:ℕ) :=
    rpow_pow_eval (1/10) (by norm_num) 0.3 10 3 (by norm_num)
  have hnn : (0:ℝ) ≤ ((1:ℝ)/10) ^ (0.3:ℝ) := Real.rpow_nonneg (by norm_num) _
  have h2 : (1/2:ℝ) ≤ ((1:ℝ)/10) ^ (0.3:ℝ) := by
    apply le_of_pow_le_pow_left₀ (by norm_num : (10:ℕ) ≠ 0) hnn
    rw [hp]
    norm_num
  have h1 : ((1:ℝ)/10) ^ (0.3:ℝ) ≤ t ^ (0.3:ℝ) :=
    Real.rpow_le_rpow (by norm_num) ht (by norm_num)
  linarith

/-- Claim C2 (counterexample).  The ordering
`conservative ≤ realistic ≤ optimistic` fails at the low score `u = 1`:
there the reported optimistic figure (≈ 50.24) is strictly below the
realistic one (exactly 100), because the curves with larger exponents lie
lower for `u/100` below `2^(-10/3) · 100 ≈ 9.92`. -/
theorem C2_valuation_ordering_counterexample :
    (speculative_valuation_ranges 1).optimistic <
      (speculative_valuation_ranges 1).realistic := by
  have hreal : realistic_valuation 1 = 100 := by
    unfold realistic_valuation
    have h1 : (1:ℝ)/100 = ((1:ℝ)/10) ^ (2:ℕ) := by norm_num
    rw [h1, pow_rpow_eval (1/10) (by norm_num) 2 5 2.5 (by norm_num)]
    norm_num
  have hopt : optimistic_valuation 1 < 99 := by
    unfold optimistic_valuation
    have ha : ((1:ℝ)/100) ^ (2.8:ℝ) < 99 / 20000000 := by
      apply lt_of_pow_lt_pow_left₀ 5 (by norm_num : (0:ℝ) ≤ 99/20000000)
      rw [rpow_pow_eval (1/100) (by norm_num) 2.8 5 14 (by norm_num)]
      norm_num
    have hb : ((1:ℝ)/100) ^ (2.8:ℝ) * 20000000 < 99 := by nlinarith
    calc min 1000000000 (max 0 (((1:ℝ)/100) ^ (2.8:ℝ) * 20000000))
        ≤ max 0 (((1:ℝ)/100) ^ (2.8:ℝ) * 20000000) := min_le_right _ _
      _ < 99 := by
          rw [max_eq_right (by positivity)]
          exact hb
  simp only [speculative_valuation_ranges]
  have h1 : pyRound (realistic_valuation 1) 2 = 100 := by
    rw [hreal]; exact pyRound_eq_self 10000 (by norm_num)
  rw [h1]
  calc pyRound (optimistic_valuation 1) 2 ≤ optimistic_valuation 1 + 1 / 10 ^ 2 :=
        pyRound_le _ 2
    _ < 100 := by linarith

/-- Claim C2 (amended).  For scores u with 10 ≤ u ≤ 100 the three reported
valuation figures are ordered `conservative ≤ realistic ≤ optimistic ≤
1,000,000,000`; moreover each figure is monotone non-decreasing in the
score and bounded in [0, CAP] for every u ≥ 10. -/
theorem C2_valuation_ordering_amended (u v : ℝ)
    (h10 : 10 ≤ u) (h100 : u ≤ 100) (huv : u ≤ v) :
    ((speculative_valuation_ranges u).conservative ≤
        (speculative_valuation_ranges u).realistic ∧
     (speculative_valuation_ranges u).realistic ≤
        (speculative_valuation_ranges u).optimistic ∧
     (speculative_valuation_ranges u).optimistic ≤ 1000000000) ∧
    ((speculative_valuation_ranges u).conservative ≤
        (speculative_valuation_ranges v).conservative ∧
     (speculative_valuation_ranges u).realistic ≤
        (speculative_valuation_ranges v).realistic ∧
     (speculative_valuation_ranges u).optimistic ≤
        (speculative_valuation_ranges v).optimistic) ∧
    (0 ≤ (speculative_valuation_ranges u).conservative ∧
     (speculative_valuation_ranges u).conservative ≤ 1000000000 ∧
     0 ≤ (speculative_valuation_ranges u).realistic ∧
     (speculative_valuation_ranges u).realistic ≤ 1000000000 ∧
     0 ≤ (speculative_valuation_ranges u).optimistic ∧
     (speculative_valuation_ranges u).optimistic ≤ 1000000000) := by
  have ht1 : (1:ℝ)/10 ≤ u/100 := by linarith
  have ht0 : (0:ℝ) < u/100 := by linarith
  have key := half_le_rpow_point_three ht1
  have split25 : (u/100) ^ (2.5:ℝ) = (u/100) ^ (2.2:ℝ) * (u/100) ^ (0.3:ℝ) := by
    rw [← Real.rpow_add ht0]; norm_num
  have split28 : (u/100) ^ (2.8:ℝ) = (u/100) ^ (2.5:ℝ) * (u/100) ^ (0.3:ℝ) := by
    rw [← Real.rpow_add ht0]; norm_num
  have hcr : (u/100) ^ (2.2:ℝ) * 5000000 ≤ (u/100) ^ (2.5:ℝ) * 10000000 := by
    have hmul : (5000000:ℝ) ≤ (u/100) ^ (0.3:ℝ) * 10000000 := by nlinarith
    calc (u/100) ^ (2.2:ℝ) * 5000000
        ≤ (u/100) ^ (2.2:ℝ) * ((u/100) ^ (0.3:ℝ) * 10000000) :=
          mul_le_mul_of_nonneg_left hmul (Real.rpow_nonneg ht0.le _)
      _ = (u/100) ^ (2.5:ℝ) * 10000000 := by rw [split25]; ring
  have hro : (u/100) ^ (2.5:ℝ) * 10000000 ≤ (u/100) ^ (2.8:ℝ) * 20000000 := by
    have hmul : (10000000:ℝ) ≤ (u/100) ^ (0.3:ℝ) * 20000000 := by nlinarith
    calc (u/100) ^ (2.5:ℝ) * 10000000
        ≤ (u/100) ^ (2.5:ℝ) * ((u/100) ^ (0.3:ℝ) * 20000000) :=
          mul_le_mul_of_nonneg_left hmul (Real.rpow_nonneg ht0.le _)
      _ = (u/100) ^ (2.8:ℝ) * 20000000 := by rw [split28]; ring
  have hcr2 : conservative_valuation u ≤ realistic_valuation u := by
    unfold conservative_valuation realistic_valuation
    exact min_le_min le_rfl (max_le_max le_rfl hcr)
  have hro2 : realistic_valuation u ≤ optimistic_valuation u := by
    unfold realistic_valuation optimistic_valuation
    exact min_le_min le_rfl (max_le_max le_rfl hro)
  have hcap1e9 : pyRound (1000000000:ℝ) 2 = 1000000000 :=
    pyRound_eq_self 100000000000 (by norm_num)
  have hmono : ∀ p c : ℝ, 0 ≤ p → 0 ≤ c →
      min 1000000000 (max 0 ((u/100) ^ p * c)) ≤
        min 1000000000 (max 0 ((v/100) ^ p * c)) := by
    intro p c hp hc
    have hb : (u/100) ^ p ≤ (v/100) ^ p :=
      Real.rpow_le_rpow ht0.le (by linarith) hp
    exact min_le_min le_rfl (max_le_max le_rfl (mul_le_mul_of_nonneg_right hb hc))
  have hnn : ∀ x : ℝ, (0:ℝ) ≤ min 1000000000 (max 0 x) :=
    fun x => le_min (by norm_num) (le_max_left _ _)
  simp only [speculative_valuation_ranges]
  refine ⟨⟨pyRound_mono 2 hcr2, pyRound_mono 2 hro2, ?_⟩, ⟨?_, ?_, ?_⟩,
    ?_, ?_, ?_, ?_, ?_, ?_⟩
  · calc pyRound (optimistic_valuation u) 2 ≤ pyRound (1000000000:ℝ) 2 :=
        pyRound_mono 2 (by unfold optimistic_valuation; exact min_le_left _ _)
      _ = 1000000000 := hcap1e9
  · refine pyRound_mono 2 ?_
    unfold conservative_valuation
    exact hmono 2.2 5000000 (by norm_num) (by norm_num)
  · refine pyRound_mono 2 ?_
    unfold realistic_valuation
    exact hmono 2.5 10000000 (by norm_num) (by norm_num)
  · refine pyRound_mono 2 ?_
    unfold optimistic_valuation
    exact hmono 2.8 20000000 (by norm_num) (by norm_num)
  · exact pyRound_nonneg 2 (by unfold conservative_valuation; exact hnn _)
  · calc pyRound (conservative_valuation u) 2 ≤ pyRound (1000000000:ℝ) 2 :=
        pyRound_mono 2 (by unfold conservative_valuation; exact min_le_left _ _)
      _ = 1000000000 := hcap1e9
  · exact pyRound_nonneg 2 (by unfold realistic_valuation; exact hnn _)
  · calc pyRound (realistic_valuation u) 2 ≤ pyRound (1000000000:ℝ) 2 :=
        pyRound_mono 2 (by unfold realistic_valuation; exact min_le_left _ _)
      _ = 1000000000 := hcap1e9
  · exact pyRound_nonneg 2 (by unfold optimistic_valuation; exact hnn _)
  · calc pyRound (optimistic_valuation u) 2 ≤ pyRound (1000000000:ℝ) 2 :=
        pyRound_mono 2 (by unfold optimistic_valuation; exact min_le_left _ _)
      _ = 1000000000 := hcap1e9

/-- Claim C2, witnessed at the scores `u = 10`, `v = 20`. -/
theorem C2_valuation_ordering_amended_witness :
    ((10:ℝ) ≤ 10 ∧ (10:ℝ) ≤ 100 ∧ (10:ℝ) ≤ 20) ∧
    (((speculative_valuation_ranges 10).conservative ≤
        (speculative_valuation_ranges 10).realistic ∧
      (speculative_valuation_ranges 10).realistic ≤
        (speculative_valuation_ranges 10).optimistic ∧
      (speculative_valuation_ranges 10).optimistic ≤ 1000000000) ∧
     ((speculative_valuation_ranges 10).conservative ≤
        (speculative_valuation_ranges 20).conservative ∧
      (speculative_valuation_ranges 10).realistic ≤
        (speculative_valuation_ranges 20).realistic ∧
      (speculative_valuation_ranges 10).optimistic ≤
        (speculative_valuation_ranges 20).optimistic) ∧
     (0 ≤ (speculative_valuation_ranges 10).conservative ∧
      (speculative_valuation_ranges 10).conservative ≤ 1000000000 ∧
      0 ≤ (speculative_valuation_ranges 10).realistic ∧
      (speculative_valuation_ranges 10).realistic ≤ 1000000000 ∧
      0 ≤ (speculative_valuation_ranges 10).optimistic ∧
      (speculative_valuation_ranges 10).optimistic ≤ 1000000000)) :=
  ⟨⟨by norm_num, by norm_num, by norm_num⟩,
   C2_valuation_ordering_amended 10 20 (by norm_num) (by norm_num) (by norm_num)⟩

end Valuation
